import Mathlib

/-!
Shallow embedding of `src/HSemaphore.h`: a counting-semaphore wrapper over the
platform `dispatch_semaphore_t` primitive, plus the scoped critical-section
helper (`_HSemaphoreSectionScope` driven by the `HSemaphoreSection` macro) and
the inner RAII guard `HSemaphore::Scope`.

The platform semaphore is modelled by its internal counter (an `Int`: the
dispatch counter may go negative, and the header's constructor accepts any
`long`).  We model single-threaded executions — no concurrent signaller — so a
wait on a non-positive counter with a finite timeout eventually times out, and
a wait with the infinite timeout blocks forever.  Every operation additionally
reports the list of primitive events (`get`/`put`) it performed on the
semaphore, so that claims about "touching" the semaphore, counts of
acquisitions and counts of releases are about the trace, not reconstructed
from the counter.
-/

namespace KodSemaphore

/-- The `dispatch_time_t` values used by the header: `DISPATCH_TIME_NOW`,
`DISPATCH_TIME_FOREVER`, or a finite deadline `ns` nanoseconds away. -/
inductive DispatchTime where
  | now
  | forever
  | finite (ns : Nat)
  deriving DecidableEq, Repr

/-- Primitive events an operation performs on the underlying dispatch
semaphore: entering `dispatch_semaphore_wait` with a given timeout, or calling
`dispatch_semaphore_signal`. -/
inductive SemEvent where
  | get (t : DispatchTime)
  | put
  deriving DecidableEq, Repr

/-- Outcome of `dispatch_semaphore_wait` in a single-threaded execution. -/
inductive WaitResult where
  | acquired
  | timedOut
  | blocked
  deriving DecidableEq, Repr

/-- `dispatch_semaphore_wait(dsema, timeout)` on a semaphore whose counter is
`count`, with no concurrent signaller: if the counter is positive it is
decremented and the wait returns 0 (`acquired`); otherwise a zero or finite
timeout elapses and the wait returns non-zero (`timedOut`) leaving the counter
unchanged, while the infinite timeout never returns (`blocked`). -/
def dispatch_semaphore_wait (count : Int) (t : DispatchTime) : WaitResult × Int :=
  if 0 < count then (WaitResult.acquired, count - 1)
  else
    match t with
    | DispatchTime.now => (WaitResult.timedOut, count)
    | DispatchTime.finite _ => (WaitResult.timedOut, count)
    | DispatchTime.forever => (WaitResult.blocked, count)

/-- `dispatch_semaphore_signal(dsema)`: increments the counter. -/
def dispatch_semaphore_signal (count : Int) : Int :=
  count + 1

/-- `dispatch_semaphore_create(value)`: returns a fresh handle holding `value`,
or `NULL` (modelled `none`) when the platform cannot allocate the resource —
per the platform documentation, a value less than zero yields `NULL`. -/
def dispatch_semaphore_create (value : Int) : Option Int :=
  if value < 0 then none else some value

/-- The `HSemaphore` object as constructed: it stores whatever handle
`dispatch_semaphore_create` returned in its `dsema_` field (`none` models a
`NULL` handle). -/
structure HSemaphore where
  dsema_ : Option Int
  deriving DecidableEq, Repr

/-- `HSemaphore::HSemaphore(long initialValue)`: stores the result of
`dispatch_semaphore_create(initialValue)` in `dsema_`, with no check. -/
def HSemaphore.construct (initialValue : Int) : HSemaphore :=
  { dsema_ := dispatch_semaphore_create initialValue }

/-- The one-argument constructor has default `initialValue = 0`; this is the
default-constructed `HSemaphore sem;` form. -/
def HSemaphore.constructDefault : HSemaphore :=
  HSemaphore.construct 0

/-- `HSemaphore::get(timeout)`: calls `dispatch_semaphore_wait(dsema_, timeout)`
and returns its result.  The member's default argument is
`DISPATCH_TIME_FOREVER`; call sites that use the default pass
`DispatchTime.forever` explicitly here.  Also reports the trace. -/
def HSemaphore.get (count : Int) (t : DispatchTime) :
    WaitResult × Int × List SemEvent :=
  let r := dispatch_semaphore_wait count t
  (r.1, r.2, [SemEvent.get t])

/-- `HSemaphore::put()`: calls `dispatch_semaphore_signal(dsema_)`. -/
def HSemaphore.put (count : Int) : Int × List SemEvent :=
  (dispatch_semaphore_signal count, [SemEvent.put])

/-- Effect of `HSemaphore::tryGet()` as written on the semaphore.  The body is
`return wait(DISPATCH_TIME_NOW);`, but `HSemaphore` has no member named `wait`
(its wait operation is named `get`), so the call does not reach the semaphore:
it either fails to resolve or binds to the C library's process-wait function.
In either case the semaphore's counter is untouched and no semaphore event is
performed; we model exactly that (absent) effect. -/
def HSemaphore.tryGet_code (count : Int) : Int × List SemEvent :=
  (count, [])

/-- What the spec sentence states `tryGet` does: `HSemaphore::get` invoked with
the zero-duration timeout `DISPATCH_TIME_NOW`. -/
def HSemaphore.tryGet_spec (count : Int) : WaitResult × Int × List SemEvent :=
  HSemaphore.get count DispatchTime.now

/-- State of a `_HSemaphoreSectionScope` guard: the `used_` flag (the bound
semaphore is a reference, modelled by passing the counter alongside). -/
structure SectionScope where
  used_ : Bool
  deriving DecidableEq, Repr

/-- `_HSemaphoreSectionScope::_HSemaphoreSectionScope(sem)`: initializes
`used_` to `false` and performs no semaphore event. -/
def SectionScope.construct : SectionScope × List SemEvent :=
  ({ used_ := false }, [])

/-- Result of a call to `getOnce`: either the call returns a boolean, or it is
stuck forever inside `sem_.get()`. -/
inductive GetOnceResult where
  | ret (b : Bool)
  | blocked
  deriving DecidableEq, Repr

/-- `_HSemaphoreSectionScope::getOnce()`: `if (used_) return false;` else
`sem_.get();` (result discarded; the call uses `get`'s default timeout
`DISPATCH_TIME_FOREVER`) then `return (used_ = true);`.  Returns the call's
result, the guard's new state, the semaphore counter, and the trace. -/
def SectionScope.getOnce (g : SectionScope) (count : Int) :
    GetOnceResult × SectionScope × Int × List SemEvent :=
  if g.used_ then (GetOnceResult.ret false, g, count, [])
  else
    match dispatch_semaphore_wait count DispatchTime.forever with
    | (WaitResult.blocked, c) =>
        (GetOnceResult.blocked, g, c, [SemEvent.get DispatchTime.forever])
    | (_, c) =>
        (GetOnceResult.ret true, { used_ := true }, c,
         [SemEvent.get DispatchTime.forever])

/-- `_HSemaphoreSectionScope::~_HSemaphoreSectionScope()`: `sem_.put();` —
the guard state is not consulted. -/
def SectionScope.destruct (g : SectionScope) (count : Int) :
    Int × List SemEvent :=
  let _ := g
  (dispatch_semaphore_signal count, [SemEvent.put])

/-- The implicit copy constructor of `_HSemaphoreSectionScope`.  The class
declares no copy operations; a reference data member suppresses only the
implicit copy assignment, not the implicit copy constructor, so C++ supplies a
memberwise copy: the copy is bound to the same semaphore and carries the same
`used_` flag.  No semaphore event is performed. -/
def SectionScope.copyConstruct (g : SectionScope) : SectionScope :=
  { used_ := g.used_ }

/-- How the guarded block's body relinquishes control: normal fall-through, or
an early non-local exit (`break`, `return`, or a thrown error). -/
inductive BodyExit where
  | normal
  | breakExit
  | returnExit
  | throwExit
  deriving DecidableEq, Repr

/-- Outcome of executing one `HSemaphoreSection(sem) { body }` statement:
control leaves the section (the guard having been destroyed, with the body's
exit mode propagated), or the thread is stuck forever inside the wait. -/
inductive SectionOutcome where
  | completed (exit : BodyExit)
  | blocked
  deriving DecidableEq, Repr

/-- The `HSemaphoreSection(sem)` macro:
`for (_HSemaphoreSectionScope __ksss(sem); __ksss.getOnce() ; ) { body }`.
The guard is constructed; `getOnce` is evaluated as the loop condition; when it
returns `true` the body runs once; on normal fall-through the condition is
re-evaluated (now `false`) and the loop ends, while `break`, `return` or a
thrown error leave the `for` statement directly; in every case in which control
leaves the statement, C++ runs the guard's destructor.  The body is abstracted
by its exit mode; the result is the outcome, the number of times the body ran,
the final counter, and the trace. -/
def runHSemaphoreSection (count : Int) (body : BodyExit) :
    SectionOutcome × Nat × Int × List SemEvent :=
  let c0 := SectionScope.construct
  match SectionScope.getOnce c0.1 count with
  | (GetOnceResult.blocked, _, c1, t1) =>
      (SectionOutcome.blocked, 0, c1, c0.2 ++ t1)
  | (GetOnceResult.ret false, g1, c1, t1) =>
      let d := SectionScope.destruct g1 c1
      (SectionOutcome.completed body, 0, d.1, c0.2 ++ t1 ++ d.2)
  | (GetOnceResult.ret true, g1, c1, t1) =>
      match body with
      | BodyExit.normal =>
          match SectionScope.getOnce g1 c1 with
          | (GetOnceResult.blocked, _, c2, t2) =>
              (SectionOutcome.blocked, 1, c2, c0.2 ++ t1 ++ t2)
          | (GetOnceResult.ret _, g2, c2, t2) =>
              let d := SectionScope.destruct g2 c2
              (SectionOutcome.completed BodyExit.normal, 1, d.1,
               c0.2 ++ t1 ++ t2 ++ d.2)
      | e =>
          let d := SectionScope.destruct g1 c1
          (SectionOutcome.completed e, 1, d.1, c0.2 ++ t1 ++ d.2)

/-- The load-time probe `__HSemaphore_init`: constructs `HSemaphore sem;`
(default `initialValue = 0`, so the handle's counter is `0`) and executes
`HSemaphoreSection(sem) { }` with an empty body.  The counter the section runs
on is the one held by the default-constructed semaphore's handle. -/
def HSemaphore_init : SectionOutcome × Nat × Int × List SemEvent :=
  match HSemaphore.constructDefault.dsema_ with
  | some c => runHSemaphoreSection c BodyExit.normal
  | none => (SectionOutcome.blocked, 0, 0, [])

/-- `HSemaphore::Scope::Scope(sem, timeout)`: performs `sem_.get(timeout)` and
discards the returned value.  If the wait blocks forever the constructor never
returns (`none`); otherwise the constructed guard carries no record of whether
the wait acquired or timed out — the class has no data member besides the
semaphore reference. -/
def Scope.construct (count : Int) (timeout : DispatchTime) :
    Option Int × List SemEvent :=
  match dispatch_semaphore_wait count timeout with
  | (WaitResult.blocked, _) => (none, [SemEvent.get timeout])
  | (_, c) => (some c, [SemEvent.get timeout])

/-- `HSemaphore::Scope::~Scope()`: `sem_.put();` — unconditional. -/
def Scope.destruct (count : Int) : Int × List SemEvent :=
  (dispatch_semaphore_signal count, [SemEvent.put])

/-- The program fragment the copyability claim is about: construct a guard,
call `getOnce()` once (one acquisition), copy-construct a second guard from it
(`_HSemaphoreSectionScope b(a);`, accepted by C++ since the copy constructor is
implicitly available), then let both guards be destroyed.  Returns the final
counter and the trace. -/
def copyScenario (count : Int) : Int × List SemEvent :=
  let c0 := SectionScope.construct
  match SectionScope.getOnce c0.1 count with
  | (GetOnceResult.blocked, _, c1, t1) => (c1, c0.2 ++ t1)
  | (_, g1, c1, t1) =>
      let g2 := SectionScope.copyConstruct g1
      let d2 := SectionScope.destruct g2 c1
      let d1 := SectionScope.destruct g1 d2.1
      (d1.1, c0.2 ++ t1 ++ d2.2 ++ d1.2)

/-- A wait that timed out left the counter unchanged. -/
theorem wait_timedOut_counter_eq (count : Int) (t : DispatchTime)
    (h : (dispatch_semaphore_wait count t).1 = WaitResult.timedOut) :
    dispatch_semaphore_wait count t = (WaitResult.timedOut, count) := by
  unfold dispatch_semaphore_wait at h ⊢
  by_cases hc : 0 < count
  · simp [hc] at h
  · cases t <;> simp [hc] at h ⊢

/-- C1: the code of `HSemaphore::tryGet` is not equivalent to
`HSemaphore::get` with the zero-duration timeout `DISPATCH_TIME_NOW`: on a
semaphore whose counter is 1, the latter acquires (decrementing the counter to
0 with one `get` event), while `tryGet` as written — whose body calls a free
function `wait`, not the member `get` — leaves the counter at 1 and performs no
semaphore event at all. -/
theorem tryGet_diverges_from_get_now :
    HSemaphore.tryGet_code 1 = (1, []) ∧
    HSemaphore.tryGet_spec 1 =
      (WaitResult.acquired, 0, [SemEvent.get DispatchTime.now]) := by
  decide

/-- C2: destroying a `_HSemaphoreSectionScope` performs exactly one `put` on
the bound semaphore, unconditionally: for every guard state `g` (whether or
not `getOnce` was ever called or returned `true`) the destructor's trace is
exactly `[put]` and the counter is incremented by one; in particular a wait on
a counter-0 semaphore that received one such release is immediately
satisfiable. -/
theorem sectionScope_destruct_one_put (g : SectionScope) (count : Int) :
    SectionScope.destruct g count = (count + 1, [SemEvent.put]) ∧
    (dispatch_semaphore_wait (SectionScope.destruct g 0).1
        DispatchTime.forever).1 = WaitResult.acquired := by
  refine ⟨rfl, ?_⟩
  norm_num [SectionScope.destruct, dispatch_semaphore_signal,
    dispatch_semaphore_wait]

/-- C3: constructing a `_HSemaphoreSectionScope` performs no semaphore event;
on a semaphore whose counter is positive, the first `getOnce` call performs
exactly one acquisition (one `get` event, decrementing the counter) and
returns `true`, setting `used_`; and any call on a guard whose `used_` flag is
set returns `false` with no semaphore event and no state change. -/
theorem sectionScope_getOnce_runs_once (count c : Int) (h : 0 < count) :
    SectionScope.construct = ({ used_ := false }, []) ∧
    SectionScope.getOnce { used_ := false } count =
      (GetOnceResult.ret true, { used_ := true }, count - 1,
       [SemEvent.get DispatchTime.forever]) ∧
    SectionScope.getOnce { used_ := true } c =
      (GetOnceResult.ret false, { used_ := true }, c, []) := by
  refine ⟨rfl, ?_, rfl⟩
  simp [SectionScope.getOnce, dispatch_semaphore_wait, h]

/-- Witness for C3 at counter 1 (second call shown at counter 5). -/
theorem sectionScope_getOnce_runs_once_check :
    0 < (1 : Int) ∧
    (SectionScope.construct = ({ used_ := false }, []) ∧
     SectionScope.getOnce { used_ := false } 1 =
       (GetOnceResult.ret true, { used_ := true }, 0,
        [SemEvent.get DispatchTime.forever]) ∧
     SectionScope.getOnce { used_ := true } 5 =
       (GetOnceResult.ret false, { used_ := true }, 5, [])) :=
  ⟨by norm_num, sectionScope_getOnce_runs_once 1 5 (by norm_num)⟩

/-- C4 counterexample: allocation failure is silently ignored by the
constructor.  At `initialValue = -1` the platform allocation fails
(`dispatch_semaphore_create` returns `NULL`), yet `HSemaphore::HSemaphore`
completes normally and hands the caller an object whose `dsema_` handle is
`NULL` — no error is surfaced at construction. -/
theorem hsem_construct_ignores_alloc_failure :
    dispatch_semaphore_create (-1) = none ∧
    HSemaphore.construct (-1) = { dsema_ := none } := by
  decide

/-- C4 amended: for every `initialValue` on which the platform allocation
fails (a negative value), construction nevertheless yields an object, whose
stored handle is `NULL`; the failure is never surfaced. -/
theorem hsem_construct_silent_on_failure (v : Int) (h : v < 0) :
    dispatch_semaphore_create v = none ∧
    HSemaphore.construct v = { dsema_ := none } := by
  constructor
  · simp [dispatch_semaphore_create, h]
  · simp [HSemaphore.construct, dispatch_semaphore_create, h]

/-- Witness for the amended C4 at `initialValue = -1`. -/
theorem hsem_construct_silent_on_failure_check :
    (-1 : Int) < 0 ∧
    (dispatch_semaphore_create (-1) = none ∧
     HSemaphore.construct (-1) = { dsema_ := none }) :=
  ⟨by norm_num, hsem_construct_silent_on_failure (-1) (by norm_num)⟩

/-- C5: on a semaphore whose counter is positive, `HSemaphoreSection` runs the
guarded body exactly once, under exactly one acquisition (a single `get`
event), and releases exactly once (a single `put` event) on every exit path —
normal fall-through, `break`, `return`, and thrown error alike — leaving the
counter as it was. -/
theorem hsemaphoreSection_once_and_released (count : Int) (body : BodyExit)
    (h : 0 < count) :
    runHSemaphoreSection count body =
      (SectionOutcome.completed body, 1, count,
       [SemEvent.get DispatchTime.forever, SemEvent.put]) := by
  cases body <;>
    simp [runHSemaphoreSection, SectionScope.construct, SectionScope.getOnce,
      SectionScope.destruct, dispatch_semaphore_wait,
      dispatch_semaphore_signal, h]

/-- Witness for C5 at counter 1 with an early `break` exit. -/
theorem hsemaphoreSection_once_and_released_check :
    0 < (1 : Int) ∧
    runHSemaphoreSection 1 BodyExit.breakExit =
      (SectionOutcome.completed BodyExit.breakExit, 1, 1,
       [SemEvent.get DispatchTime.forever, SemEvent.put]) :=
  ⟨by norm_num, hsemaphoreSection_once_and_released 1 BodyExit.breakExit
    (by norm_num)⟩

/-- C6 counterexample: the acquisition inside the first `getOnce` is not
governed by any guard-configured timeout.  The guard constructor takes only
the semaphore, and on a freshly constructed guard over a counter-0 semaphore
the first `getOnce` issues a wait with `DISPATCH_TIME_FOREVER` — not the
zero-duration timeout a guard "configured with `DISPATCH_TIME_NOW`" would be
bounded by — and blocks forever instead of timing out. -/
theorem sectionScope_timeout_not_configurable :
    SectionScope.getOnce SectionScope.construct.1 0 =
      (GetOnceResult.blocked, { used_ := false }, 0,
       [SemEvent.get DispatchTime.forever]) ∧
    DispatchTime.forever ≠ DispatchTime.now := by
  decide

/-- C6 amended: the section guard's constructor accepts no timeout; for every
semaphore counter, the wait issued by the first `getOnce` carries the infinite
timeout `DISPATCH_TIME_FOREVER` (the default of `HSemaphore::get`), matching
the spec's guard only in its default infinite-timeout form. -/
theorem sectionScope_always_waits_forever (count : Int) :
    (SectionScope.getOnce SectionScope.construct.1 count).2.2.2 =
      [SemEvent.get DispatchTime.forever] := by
  by_cases h : 0 < count <;>
    simp [SectionScope.construct, SectionScope.getOnce,
      dispatch_semaphore_wait, h]

/-- C7 counterexample: a program CAN obtain two guard instances that both
release the semaphore for a single acquisition.  `_HSemaphoreSectionScope`
declares no copy constructor, so C++ supplies the implicit memberwise one;
copying a guard after its `getOnce` and destroying both yields a trace with
one `get` and two `put` events, driving a counter-1 semaphore to 2. -/
theorem sectionScope_copy_double_release :
    copyScenario 1 =
      (2, [SemEvent.get DispatchTime.forever, SemEvent.put, SemEvent.put]) ∧
    (copyScenario 1).2.count (SemEvent.get DispatchTime.forever) = 1 ∧
    (copyScenario 1).2.count SemEvent.put = 2 := by
  decide

/-- C7 amended: the guard is non-reassignable (its reference member suppresses
the implicit copy assignment) but it is copy-constructible — the implicit copy
constructor duplicates the `used_` flag — and for every positive counter the
copy-then-destroy-both program performs one acquisition and two releases,
leaving the counter one above its initial value. -/
theorem sectionScope_copy_releases_twice (count : Int) (h : 0 < count) :
    SectionScope.copyConstruct { used_ := true } = { used_ := true } ∧
    copyScenario count =
      (count + 1,
       [SemEvent.get DispatchTime.forever, SemEvent.put, SemEvent.put]) := by
  refine ⟨rfl, ?_⟩
  simp [copyScenario, SectionScope.construct, SectionScope.getOnce,
    SectionScope.copyConstruct, SectionScope.destruct,
    dispatch_semaphore_wait, dispatch_semaphore_signal, h]

/-- Witness for the amended C7 at counter 2. -/
theorem sectionScope_copy_releases_twice_check :
    0 < (2 : Int) ∧
    (SectionScope.copyConstruct { used_ := true } = { used_ := true } ∧
     copyScenario 2 =
       (3, [SemEvent.get DispatchTime.forever, SemEvent.put, SemEvent.put])) :=
  ⟨by norm_num, sectionScope_copy_releases_twice 2 (by norm_num)⟩

/-- C8: the load-time probe `__HSemaphore_init` default-constructs a semaphore
whose handle holds counter 0 and enters `HSemaphoreSection` on it; the first
`getOnce` waits with the infinite timeout on the counter-0 semaphore, no
signal ever precedes it, so the probe blocks forever: the body never runs, no
`put` ever happens, and `__HSemaphore_init` never returns. -/
theorem hsemaphore_init_never_returns :
    HSemaphore.constructDefault = { dsema_ := some 0 } ∧
    HSemaphore_init =
      (SectionOutcome.blocked, 0, 0, [SemEvent.get DispatchTime.forever]) := by
  decide

/-- C9: `HSemaphore::Scope`'s constructor performs exactly one `get(timeout)`
whose result is discarded (the guard records nothing about it), and its
destructor performs exactly one unconditional `put`; hence when the
construction-time wait timed out (which left the counter unchanged), the
destructor still signals, ending at one above the counter the scope was
created on despite zero acquisitions. -/
theorem scope_signals_despite_timeout (count : Int) (t : DispatchTime)
    (h : (dispatch_semaphore_wait count t).1 = WaitResult.timedOut) :
    Scope.construct count t = (some count, [SemEvent.get t]) ∧
    Scope.destruct count = (count + 1, [SemEvent.put]) := by
  have hw := wait_timedOut_counter_eq count t h
  refine ⟨?_, rfl⟩
  simp [Scope.construct, hw]

/-- Witness for C9 at counter 0 with timeout `DISPATCH_TIME_NOW`. -/
theorem scope_signals_despite_timeout_check :
    (dispatch_semaphore_wait 0 DispatchTime.now).1 = WaitResult.timedOut ∧
    (Scope.construct 0 DispatchTime.now =
       (some 0, [SemEvent.get DispatchTime.now]) ∧
     Scope.destruct 0 = (1, [SemEvent.put])) :=
  ⟨by decide, scope_signals_despite_timeout 0 DispatchTime.now (by decide)⟩

/-- C10: the no-argument construction `HSemaphore sem;` uses the default
`initialValue = 0`, producing a handle whose counter is 0; on that semaphore a
`get` with the infinite timeout blocks (it cannot time out and cannot
acquire), and after one `put` the same `get` acquires immediately. -/
theorem hsem_default_zero_blocks_until_put :
    HSemaphore.constructDefault = HSemaphore.construct 0 ∧
    HSemaphore.construct 0 = { dsema_ := some 0 } ∧
    HSemaphore.get 0 DispatchTime.forever =
      (WaitResult.blocked, 0, [SemEvent.get DispatchTime.forever]) ∧
    HSemaphore.get (HSemaphore.put 0).1 DispatchTime.forever =
      (WaitResult.acquired, 0, [SemEvent.get DispatchTime.forever]) := by
  decide

end KodSemaphore
